import Mathlib

/-!
The class `carla::PythonUtil` of `LibCarla/source/carla/PythonUtil.h`.

A shallow embedding of the GIL helpers of `PythonUtil.h`.

* The host interpreter (the Python C API) is not part of the header; it is a
  parameter `Host σ` over an arbitrary host state `σ`.
* A computation is a function from the host state to a `Run`: the list of
  operations the header's code executed, the final host state, and the value
  (`none` when the computation exits by a propagating exception).
* The two build switches of the header, `LIBCARLA_WITH_PYTHON_SUPPORT` and
  `PY_MAJOR_VERSION`, are the fields of `Build`.
-/

namespace carla

/-- The null pointer; pointers are addresses. -/
def nullptr : Nat := 0

/-- The C enumeration returned by `PyGILState_Ensure` and consumed by
`PyGILState_Release`. -/
inductive PyGILState_STATE where
  | PyGILState_LOCKED
  | PyGILState_UNLOCKED
  deriving DecidableEq, Repr

/-- The preprocessor configuration the header is compiled under. -/
structure Build where
  LIBCARLA_WITH_PYTHON_SUPPORT : Bool
  PY_MAJOR_VERSION : Nat
  deriving DecidableEq, Repr

/-- The host interpreter entry points used by the header, as functions of the
host state `σ`.  `PyThreadState *` values are addresses. -/
structure Host (σ : Type) where
  PyGILState_Check : σ → Int
  _PyThreadState_Current : σ → Nat
  PyGILState_GetThisThreadState : σ → Nat
  PyGILState_Ensure : σ → PyGILState_STATE × σ
  PyGILState_Release : PyGILState_STATE → σ → σ
  PyEval_SaveThread : σ → Nat × σ
  PyEval_RestoreThread : Nat → σ → σ

/-- One operation executed by the code of the header: a call of a host entry
point (with the value returned or passed), or the destruction of the object at
`ptr` by a `delete` expression, together with the host state at that moment. -/
inductive Event (σ : Type) where
  | PyGILState_Check
  | PyGILState_GetThisThreadState
  | PyGILState_Ensure (ret : PyGILState_STATE)
  | PyGILState_Release (arg : PyGILState_STATE)
  | PyEval_SaveThread (ret : Nat)
  | PyEval_RestoreThread (arg : Nat)
  | destroy (ptr : Nat) (now : σ)
  deriving DecidableEq, Repr

/-- The outcome of running a computation: the operations executed, the final
host state, and the value; `value = none` is exit by a propagating exception. -/
structure Run (σ α : Type) where
  trace : List (Event σ)
  host : σ
  value : Option α
  deriving DecidableEq, Repr

/-- A computation of the embedding. -/
abbrev Prog (σ α : Type) := σ → Run σ α

/-- Sequencing `p; f a`: an exception in `p` skips `f`. -/
def Prog.bind {σ α β : Type} (p : Prog σ α) (f : α → Prog σ β) : Prog σ β := fun s =>
  let r := p s
  match r.value with
  | none => ⟨r.trace, r.host, none⟩
  | some a =>
    let q := f a r.host
    ⟨r.trace ++ q.trace, q.host, q.value⟩

/-- The block `{ T lock; body }`: the constructor runs, then the body, then the
destructor of `lock`, on normal completion and on exception propagation alike;
the block exits the way the body did. -/
def block {σ γ α : Type} (ctor : Prog σ γ) (dtor : γ → Prog σ Unit) (body : Prog σ α) :
    Prog σ α := fun s =>
  let c := ctor s
  match c.value with
  | none => ⟨c.trace, c.host, none⟩
  | some lock =>
    let b := body c.host
    let d := dtor lock b.host
    ⟨c.trace ++ b.trace ++ d.trace, d.host, b.value⟩

/-- The destructor `T::~T()` of the deleted object is code outside the header:
given the address and the host state it yields whether it returned (`some ()`)
or threw (`none`), and the host state it leaves. -/
abbrev ObjDtor (σ : Type) := Nat → σ → Option Unit × σ

/-- The expression `delete ptr`: nothing for a null pointer, otherwise the
object at `ptr` is destroyed. -/
def delete {σ : Type} (dtorT : ObjDtor σ) (ptr : Nat) : Prog σ Unit := fun s =>
  if ptr = nullptr then ⟨[], s, some ()⟩
  else ⟨[Event.destroy ptr s], (dtorT ptr s).2, (dtorT ptr s).1⟩

/-- Embedding of `PythonUtil::ThisThreadHasTheGIL`. -/
def ThisThreadHasTheGIL {σ : Type} (cfg : Build) (h : Host σ) : Prog σ Bool := fun s =>
  if cfg.LIBCARLA_WITH_PYTHON_SUPPORT then
    if cfg.PY_MAJOR_VERSION ≥ 3 then
      -- return PyGILState_Check();
      ⟨[Event.PyGILState_Check], s, some (decide (h.PyGILState_Check s ≠ 0))⟩
    else
      -- PyThreadState *tstate = _PyThreadState_Current;
      -- return (tstate != nullptr) && (tstate == PyGILState_GetThisThreadState());
      let tstate := h._PyThreadState_Current s
      if tstate ≠ nullptr then
        ⟨[Event.PyGILState_GetThisThreadState], s,
          some (decide (tstate = h.PyGILState_GetThisThreadState s))⟩
      else ⟨[], s, some false⟩
  else
    -- return false;
    ⟨[], s, some false⟩

/-- Embedding of `class PythonUtil::AcquireGIL` (Python support compiled in): its only
member is `_state`. -/
structure AcquireGIL where
  _state : PyGILState_STATE
  deriving DecidableEq, Repr

/-- Constructor `AcquireGIL() : _state(PyGILState_Ensure()) {}`. -/
def AcquireGIL.ctor {σ : Type} (h : Host σ) : Prog σ AcquireGIL := fun s =>
  let r := h.PyGILState_Ensure s
  ⟨[Event.PyGILState_Ensure r.1], r.2, some ⟨r.1⟩⟩

/-- Destructor `~AcquireGIL() { PyGILState_Release(_state); }`. -/
def AcquireGIL.dtor {σ : Type} (h : Host σ) (self : AcquireGIL) : Prog σ Unit := fun s =>
  ⟨[Event.PyGILState_Release self._state], h.PyGILState_Release self._state s, some ()⟩

/-- Embedding of `class PythonUtil::ReleaseGIL` (Python support compiled in): its only
member is `_state`. -/
structure ReleaseGIL where
  _state : Nat
  deriving DecidableEq, Repr

/-- Constructor `ReleaseGIL() : _state(PyEval_SaveThread()) {}`. -/
def ReleaseGIL.ctor {σ : Type} (h : Host σ) : Prog σ ReleaseGIL := fun s =>
  let r := h.PyEval_SaveThread s
  ⟨[Event.PyEval_SaveThread r.1], r.2, some ⟨r.1⟩⟩

/-- Destructor `~ReleaseGIL() { PyEval_RestoreThread(_state); }`. -/
def ReleaseGIL.dtor {σ : Type} (h : Host σ) (self : ReleaseGIL) : Prog σ Unit := fun s =>
  ⟨[Event.PyEval_RestoreThread self._state], h.PyEval_RestoreThread self._state s, some ()⟩

/-- Embedding of `PythonUtil::AcquireGILDeleter::operator()`. -/
def AcquireGILDeleter {σ : Type} (cfg : Build) (h : Host σ) (dtorT : ObjDtor σ) (ptr : Nat) :
    Prog σ Unit :=
  if cfg.LIBCARLA_WITH_PYTHON_SUPPORT then
    -- if (ptr != nullptr && !PythonUtil::ThisThreadHasTheGIL())
    if ptr ≠ nullptr then
      (ThisThreadHasTheGIL cfg h).bind fun has =>
        if !has then
          -- { AcquireGIL lock; delete ptr; }
          block (AcquireGIL.ctor h) (AcquireGIL.dtor h) (delete dtorT ptr)
        else
          delete dtorT ptr
    else
      delete dtorT ptr
  else
    delete dtorT ptr

/-- Embedding of `PythonUtil::ReleaseGILDeleter::operator()`. -/
def ReleaseGILDeleter {σ : Type} (cfg : Build) (h : Host σ) (dtorT : ObjDtor σ) (ptr : Nat) :
    Prog σ Unit :=
  if cfg.LIBCARLA_WITH_PYTHON_SUPPORT then
    -- if (ptr != nullptr && PythonUtil::ThisThreadHasTheGIL())
    if ptr ≠ nullptr then
      (ThisThreadHasTheGIL cfg h).bind fun has =>
        if has then
          -- { ReleaseGIL lock; delete ptr; }
          block (ReleaseGIL.ctor h) (ReleaseGIL.dtor h) (delete dtorT ptr)
        else
          delete dtorT ptr
    else
      delete dtorT ptr
  else
    delete dtorT ptr

/-! ## Observations on traces -/

/-- The destructions recorded in a trace, in order: address and host state at
the moment of destruction. -/
def destructions {σ : Type} : List (Event σ) → List (Nat × σ)
  | [] => []
  | Event.destroy p s :: t => (p, s) :: destructions t
  | _ :: t => destructions t

/-- The host interpreter calls recorded in a trace, in order (everything except
the destructions). -/
def hostCalls {σ : Type} : List (Event σ) → List (Event σ)
  | [] => []
  | Event.destroy _ _ :: t => hostCalls t
  | e :: t => e :: hostCalls t

/-- Whether the event is a call that acquires or releases the lock
(`PyGILState_Ensure`, `PyGILState_Release`, `PyEval_SaveThread`,
`PyEval_RestoreThread`). -/
def Event.isToggle {σ : Type} : Event σ → Bool
  | Event.PyGILState_Ensure _ => true
  | Event.PyGILState_Release _ => true
  | Event.PyEval_SaveThread _ => true
  | Event.PyEval_RestoreThread _ => true
  | _ => false

/-! ## A reference host

The calling thread as seen by a CPython-like host: whether it holds the GIL,
and the address of its thread state. -/

/-- Host state of the reference host. -/
structure PyModel where
  gil : Bool
  self : Nat
  deriving DecidableEq, Repr

/-- The reference host: `PyGILState_Ensure` reports in its token whether the
lock was already held and leaves it held; `PyGILState_Release` leaves the lock
held exactly for a `PyGILState_LOCKED` token; `PyEval_SaveThread` gives up the
lock and returns the current thread state; `PyEval_RestoreThread` takes the lock.

CPython lets `PyEval_SaveThread` return only to a thread that holds the GIL and
aborts the process otherwise.  The functions here are total: from a state
without the GIL `PyEval_SaveThread` yields the null current thread state, a
placeholder for the abort, and no guard is run from such a state below. -/
def pyHost : Host PyModel where
  PyGILState_Check := fun s => if s.gil then 1 else 0
  _PyThreadState_Current := fun s => if s.gil then s.self else nullptr
  PyGILState_GetThisThreadState := fun s => s.self
  PyGILState_Ensure := fun s =>
    (if s.gil then PyGILState_STATE.PyGILState_LOCKED else PyGILState_STATE.PyGILState_UNLOCKED,
      { s with gil := true })
  PyGILState_Release := fun tok s =>
    { s with gil := decide (tok = PyGILState_STATE.PyGILState_LOCKED) }
  PyEval_SaveThread := fun s => (if s.gil then s.self else nullptr, { s with gil := false })
  PyEval_RestoreThread := fun t _ => { gil := true, self := t }

/-- Whether the calling thread holds the GIL in a state of the reference host. -/
def pyHeld (s : PyModel) : Bool := s.gil

/-- An object destructor that returns normally and leaves the host untouched. -/
def quietDtor : ObjDtor PyModel := fun _ s => (some (), s)

/-- An object destructor that exits by exception and leaves the host untouched. -/
def throwingDtor : ObjDtor PyModel := fun _ s => (none, s)

/-- Build with Python 3 support. -/
def py3 : Build := ⟨true, 3⟩

/-- Build with Python 2 support. -/
def py2 : Build := ⟨true, 2⟩

/-- Build without Python support. -/
def noPy : Build := ⟨false, 0⟩

/-- A guarded body that exits by exception, leaving the host untouched. -/
def raise {σ : Type} : Prog σ Unit := fun s => ⟨[], s, none⟩

end carla

namespace carla

/-! ## Shape lemmas -/

theorem ThisThreadHasTheGIL_host {σ : Type} (cfg : Build) (h : Host σ) (s : σ) :
    (ThisThreadHasTheGIL cfg h s).host = s := by
  unfold ThisThreadHasTheGIL
  dsimp only
  split_ifs <;> rfl

theorem ThisThreadHasTheGIL_returns {σ : Type} (cfg : Build) (h : Host σ) (s : σ) :
    ∃ b, (ThisThreadHasTheGIL cfg h s).value = some b := by
  unfold ThisThreadHasTheGIL
  dsimp only
  split_ifs <;> exact ⟨_, rfl⟩

theorem ThisThreadHasTheGIL_trace_quiet {σ : Type} (cfg : Build) (h : Host σ) (s : σ) :
    destructions (ThisThreadHasTheGIL cfg h s).trace = [] ∧
      ∀ e ∈ (ThisThreadHasTheGIL cfg h s).trace, e.isToggle = false := by
  unfold ThisThreadHasTheGIL
  dsimp only
  split_ifs <;> simp [destructions, Event.isToggle]

theorem delete_nonnull {σ : Type} (dtorT : ObjDtor σ) (ptr : Nat) (s : σ) (hp : ptr ≠ nullptr) :
    delete dtorT ptr s = ⟨[Event.destroy ptr s], (dtorT ptr s).2, (dtorT ptr s).1⟩ := by
  simp [delete, hp]

theorem delete_null {σ : Type} (dtorT : ObjDtor σ) (s : σ) :
    delete dtorT nullptr s = ⟨[], s, some ()⟩ := by
  simp [delete]

theorem AcquireGILDeleter_locked {σ : Type} (cfg : Build) (h : Host σ) (dtorT : ObjDtor σ)
    (ptr : Nat) (s : σ) (hpy : cfg.LIBCARLA_WITH_PYTHON_SUPPORT = true) (hp : ptr ≠ nullptr)
    (hno : (ThisThreadHasTheGIL cfg h s).value = some false) :
    AcquireGILDeleter cfg h dtorT ptr s =
      ⟨(ThisThreadHasTheGIL cfg h s).trace ++
          [Event.PyGILState_Ensure (h.PyGILState_Ensure s).1,
           Event.destroy ptr (h.PyGILState_Ensure s).2,
           Event.PyGILState_Release (h.PyGILState_Ensure s).1],
        h.PyGILState_Release (h.PyGILState_Ensure s).1
          (dtorT ptr (h.PyGILState_Ensure s).2).2,
        (dtorT ptr (h.PyGILState_Ensure s).2).1⟩ := by
  have hh := ThisThreadHasTheGIL_host cfg h s
  simp [AcquireGILDeleter, hpy, hp, Prog.bind, hno, block, AcquireGIL.ctor, AcquireGIL.dtor,
    delete, hh]

theorem AcquireGILDeleter_plain {σ : Type} (cfg : Build) (h : Host σ) (dtorT : ObjDtor σ)
    (ptr : Nat) (s : σ) (hpy : cfg.LIBCARLA_WITH_PYTHON_SUPPORT = true) (hp : ptr ≠ nullptr)
    (hyes : (ThisThreadHasTheGIL cfg h s).value = some true) :
    AcquireGILDeleter cfg h dtorT ptr s =
      ⟨(ThisThreadHasTheGIL cfg h s).trace ++ [Event.destroy ptr s],
        (dtorT ptr s).2, (dtorT ptr s).1⟩ := by
  have hh := ThisThreadHasTheGIL_host cfg h s
  simp [AcquireGILDeleter, hpy, hp, Prog.bind, hyes, delete, hh]

theorem ReleaseGILDeleter_unlocked {σ : Type} (cfg : Build) (h : Host σ) (dtorT : ObjDtor σ)
    (ptr : Nat) (s : σ) (hpy : cfg.LIBCARLA_WITH_PYTHON_SUPPORT = true) (hp : ptr ≠ nullptr)
    (hyes : (ThisThreadHasTheGIL cfg h s).value = some true) :
    ReleaseGILDeleter cfg h dtorT ptr s =
      ⟨(ThisThreadHasTheGIL cfg h s).trace ++
          [Event.PyEval_SaveThread (h.PyEval_SaveThread s).1,
           Event.destroy ptr (h.PyEval_SaveThread s).2,
           Event.PyEval_RestoreThread (h.PyEval_SaveThread s).1],
        h.PyEval_RestoreThread (h.PyEval_SaveThread s).1
          (dtorT ptr (h.PyEval_SaveThread s).2).2,
        (dtorT ptr (h.PyEval_SaveThread s).2).1⟩ := by
  have hh := ThisThreadHasTheGIL_host cfg h s
  simp [ReleaseGILDeleter, hpy, hp, Prog.bind, hyes, block, ReleaseGIL.ctor, ReleaseGIL.dtor,
    delete, hh]

theorem ReleaseGILDeleter_plain {σ : Type} (cfg : Build) (h : Host σ) (dtorT : ObjDtor σ)
    (ptr : Nat) (s : σ) (hpy : cfg.LIBCARLA_WITH_PYTHON_SUPPORT = true) (hp : ptr ≠ nullptr)
    (hno : (ThisThreadHasTheGIL cfg h s).value = some false) :
    ReleaseGILDeleter cfg h dtorT ptr s =
      ⟨(ThisThreadHasTheGIL cfg h s).trace ++ [Event.destroy ptr s],
        (dtorT ptr s).2, (dtorT ptr s).1⟩ := by
  have hh := ThisThreadHasTheGIL_host cfg h s
  simp [ReleaseGILDeleter, hpy, hp, Prog.bind, hno, delete, hh]

theorem AcquireGILDeleter_noPython {σ : Type} (cfg : Build) (h : Host σ) (dtorT : ObjDtor σ)
    (ptr : Nat) (hpy : cfg.LIBCARLA_WITH_PYTHON_SUPPORT = false) :
    AcquireGILDeleter cfg h dtorT ptr = delete dtorT ptr := by
  simp [AcquireGILDeleter, hpy]

theorem ReleaseGILDeleter_noPython {σ : Type} (cfg : Build) (h : Host σ) (dtorT : ObjDtor σ)
    (ptr : Nat) (hpy : cfg.LIBCARLA_WITH_PYTHON_SUPPORT = false) :
    ReleaseGILDeleter cfg h dtorT ptr = delete dtorT ptr := by
  simp [ReleaseGILDeleter, hpy]

theorem AcquireGILDeleter_null {σ : Type} (cfg : Build) (h : Host σ) (dtorT : ObjDtor σ) (s : σ) :
    AcquireGILDeleter cfg h dtorT nullptr s = ⟨[], s, some ()⟩ := by
  simp [AcquireGILDeleter, delete]

theorem ReleaseGILDeleter_null {σ : Type} (cfg : Build) (h : Host σ) (dtorT : ObjDtor σ) (s : σ) :
    ReleaseGILDeleter cfg h dtorT nullptr s = ⟨[], s, some ()⟩ := by
  simp [ReleaseGILDeleter, delete]

theorem getLast_cons_snoc {β : Type} (a b : β) (l : List β) :
    (a :: (l ++ [b])).getLast? = some b := by
  rw [← List.cons_append, List.getLast?_append]
  simp

theorem destructions_append {σ : Type} (l₁ l₂ : List (Event σ)) :
    destructions (l₁ ++ l₂) = destructions l₁ ++ destructions l₂ := by
  induction l₁ with
  | nil => rfl
  | cons e t ih => cases e <;> simp [destructions, ih]

theorem hostCalls_append {σ : Type} (l₁ l₂ : List (Event σ)) :
    hostCalls (l₁ ++ l₂) = hostCalls l₁ ++ hostCalls l₂ := by
  induction l₁ with
  | nil => rfl
  | cons e t ih => cases e <;> simp [hostCalls, ih]

theorem AcquireGILDeleter_py3_sample :
    (AcquireGILDeleter py3 pyHost quietDtor 7 ⟨false, 100⟩).trace =
    [Event.PyGILState_Check, Event.PyGILState_Ensure PyGILState_STATE.PyGILState_UNLOCKED,
      Event.destroy 7 ⟨true, 100⟩,
      Event.PyGILState_Release PyGILState_STATE.PyGILState_UNLOCKED] := by decide

theorem AcquireGILDeleter_throwing_sample :
    AcquireGILDeleter py3 pyHost throwingDtor 7 ⟨false, 100⟩ =
      ⟨[Event.PyGILState_Check, Event.PyGILState_Ensure PyGILState_STATE.PyGILState_UNLOCKED,
          Event.destroy 7 ⟨true, 100⟩,
          Event.PyGILState_Release PyGILState_STATE.PyGILState_UNLOCKED],
        ⟨false, 100⟩, none⟩ := by decide

theorem ReleaseGILDeleter_py2_sample :
    (ReleaseGILDeleter py2 pyHost quietDtor 7 ⟨true, 100⟩).trace =
    [Event.PyGILState_GetThisThreadState, Event.PyEval_SaveThread 100,
      Event.destroy 7 ⟨false, 100⟩,
      Event.PyEval_RestoreThread 100] := by decide

/-! ## The deleters destroy once, under the right lock status -/

/-- C1. With Python support compiled in, for a non-null pointer and any host
state on entry (GIL held or not), `AcquireGILDeleter::operator()` records exactly
one destruction, that of the object at `ptr`, and the calling thread holds the
GIL at that moment.  Host assumptions: `PyGILState_Ensure` leaves the GIL held by
the caller, and a `true` answer of `ThisThreadHasTheGIL` on entry is truthful. -/
theorem AcquireGILDeleter_destroys_once_holding_GIL {σ : Type} (cfg : Build) (h : Host σ)
    (held : σ → Bool) (dtorT : ObjDtor σ) (ptr : Nat) (s : σ)
    (hpy : cfg.LIBCARLA_WITH_PYTHON_SUPPORT = true) (hp : ptr ≠ nullptr)
    (hcheck : (ThisThreadHasTheGIL cfg h s).value = some true → held s = true)
    (hens : ∀ s0, held (h.PyGILState_Ensure s0).2 = true) :
    ∃ now, destructions (AcquireGILDeleter cfg h dtorT ptr s).trace = [(ptr, now)] ∧
      held now = true := by
  obtain ⟨b, hb⟩ := ThisThreadHasTheGIL_returns cfg h s
  have hq := (ThisThreadHasTheGIL_trace_quiet cfg h s).1
  cases b with
  | false =>
    refine ⟨(h.PyGILState_Ensure s).2, ?_, hens s⟩
    rw [AcquireGILDeleter_locked cfg h dtorT ptr s hpy hp hb]
    simp [destructions_append, hq, destructions]
  | true =>
    refine ⟨s, ?_, hcheck hb⟩
    rw [AcquireGILDeleter_plain cfg h dtorT ptr s hpy hp hb]
    simp [destructions_append, hq, destructions]

/-- Witness for C1 on the reference host, entered without and with the GIL. -/
theorem AcquireGILDeleter_destroys_once_holding_GIL_witness :
    py3.LIBCARLA_WITH_PYTHON_SUPPORT = true ∧ (7 : Nat) ≠ nullptr ∧
      (∀ s0, pyHeld (pyHost.PyGILState_Ensure s0).2 = true) ∧
      (∃ now, destructions (AcquireGILDeleter py3 pyHost quietDtor 7 ⟨false, 100⟩).trace
          = [(7, now)] ∧ pyHeld now = true) ∧
      (∃ now, destructions (AcquireGILDeleter py3 pyHost quietDtor 7 ⟨true, 100⟩).trace
          = [(7, now)] ∧ pyHeld now = true) :=
  ⟨rfl, by decide, fun _ => rfl,
    AcquireGILDeleter_destroys_once_holding_GIL py3 pyHost pyHeld quietDtor 7 ⟨false, 100⟩
      rfl (by decide) (by decide) (fun _ => rfl),
    AcquireGILDeleter_destroys_once_holding_GIL py3 pyHost pyHeld quietDtor 7 ⟨true, 100⟩
      rfl (by decide) (fun _ => rfl) (fun _ => rfl)⟩

/-- C2. With Python support compiled in, for a non-null pointer and any host
state on entry (GIL held or not), `ReleaseGILDeleter::operator()` records exactly
one destruction, that of the object at `ptr`, and the calling thread does not
hold the GIL at that moment.  Host assumptions: `PyEval_SaveThread` leaves the
GIL not held by the caller, and a `false` answer of `ThisThreadHasTheGIL` on
entry is truthful. -/
theorem ReleaseGILDeleter_destroys_once_without_GIL {σ : Type} (cfg : Build) (h : Host σ)
    (held : σ → Bool) (dtorT : ObjDtor σ) (ptr : Nat) (s : σ)
    (hpy : cfg.LIBCARLA_WITH_PYTHON_SUPPORT = true) (hp : ptr ≠ nullptr)
    (hcheck : (ThisThreadHasTheGIL cfg h s).value = some false → held s = false)
    (hsave : ∀ s0, held (h.PyEval_SaveThread s0).2 = false) :
    ∃ now, destructions (ReleaseGILDeleter cfg h dtorT ptr s).trace = [(ptr, now)] ∧
      held now = false := by
  obtain ⟨b, hb⟩ := ThisThreadHasTheGIL_returns cfg h s
  have hq := (ThisThreadHasTheGIL_trace_quiet cfg h s).1
  cases b with
  | true =>
    refine ⟨(h.PyEval_SaveThread s).2, ?_, hsave s⟩
    rw [ReleaseGILDeleter_unlocked cfg h dtorT ptr s hpy hp hb]
    simp [destructions_append, hq, destructions]
  | false =>
    refine ⟨s, ?_, hcheck hb⟩
    rw [ReleaseGILDeleter_plain cfg h dtorT ptr s hpy hp hb]
    simp [destructions_append, hq, destructions]

/-- Witness for C2 on the reference host, entered with and without the GIL. -/
theorem ReleaseGILDeleter_destroys_once_without_GIL_witness :
    py3.LIBCARLA_WITH_PYTHON_SUPPORT = true ∧ (7 : Nat) ≠ nullptr ∧
      (∀ s0, pyHeld (pyHost.PyEval_SaveThread s0).2 = false) ∧
      (∃ now, destructions (ReleaseGILDeleter py3 pyHost quietDtor 7 ⟨true, 100⟩).trace
          = [(7, now)] ∧ pyHeld now = false) ∧
      (∃ now, destructions (ReleaseGILDeleter py3 pyHost quietDtor 7 ⟨false, 100⟩).trace
          = [(7, now)] ∧ pyHeld now = false) :=
  ⟨rfl, by decide, fun _ => rfl,
    ReleaseGILDeleter_destroys_once_without_GIL py3 pyHost pyHeld quietDtor 7 ⟨true, 100⟩
      rfl (by decide) (by decide) (fun _ => rfl),
    ReleaseGILDeleter_destroys_once_without_GIL py3 pyHost pyHeld quietDtor 7 ⟨false, 100⟩
      rfl (by decide) (fun _ => rfl) (fun _ => rfl)⟩

/-! ## The scoped guards -/

/-- C3. The destructor of `AcquireGIL` undoes its constructor: for every host,
host state and guarded body, the guard stores the token `PyGILState_Ensure`
returned, the scope starts with that call and ends with `PyGILState_Release` of
the very same token, applied to the state the body left; and on a host where
releasing an Ensure token restores the status before the Ensure, the GIL status
after the scope equals the status before it. -/
theorem AcquireGIL_dtor_undoes_ctor {σ α : Type} (h : Host σ) (held : σ → Bool)
    (body : Prog σ α) (s : σ)
    (hrel : ∀ s0 s1, held (h.PyGILState_Release (h.PyGILState_Ensure s0).1 s1) = held s0) :
    (AcquireGIL.ctor h s).value = some ⟨(h.PyGILState_Ensure s).1⟩ ∧
    (block (AcquireGIL.ctor h) (AcquireGIL.dtor h) body s).trace.head? =
        some (Event.PyGILState_Ensure (h.PyGILState_Ensure s).1) ∧
    (block (AcquireGIL.ctor h) (AcquireGIL.dtor h) body s).trace.getLast? =
        some (Event.PyGILState_Release (h.PyGILState_Ensure s).1) ∧
    (block (AcquireGIL.ctor h) (AcquireGIL.dtor h) body s).host =
        h.PyGILState_Release (h.PyGILState_Ensure s).1 (body (h.PyGILState_Ensure s).2).host ∧
    held (block (AcquireGIL.ctor h) (AcquireGIL.dtor h) body s).host = held s := by
  refine ⟨rfl, ?_, ?_, rfl, ?_⟩
  · simp [block, AcquireGIL.ctor, AcquireGIL.dtor]
  · simp [block, AcquireGIL.ctor, AcquireGIL.dtor, getLast_cons_snoc]
  · simp [block, AcquireGIL.ctor, AcquireGIL.dtor, hrel]

/-- Witness for C3 on the reference host, entered without the GIL, with a body
that exits by exception. -/
theorem AcquireGIL_dtor_undoes_ctor_witness :
    (∀ s0 s1, pyHeld (pyHost.PyGILState_Release (pyHost.PyGILState_Ensure s0).1 s1)
        = pyHeld s0) ∧
    (block (AcquireGIL.ctor pyHost) (AcquireGIL.dtor pyHost) raise ⟨false, 100⟩).trace =
        [Event.PyGILState_Ensure PyGILState_STATE.PyGILState_UNLOCKED,
         Event.PyGILState_Release PyGILState_STATE.PyGILState_UNLOCKED] ∧
    pyHeld (block (AcquireGIL.ctor pyHost) (AcquireGIL.dtor pyHost) raise ⟨false, 100⟩).host
        = pyHeld ⟨false, 100⟩ :=
  ⟨fun s0 _ => by cases s0 with | mk g t => cases g <;> rfl, by decide,
    (AcquireGIL_dtor_undoes_ctor pyHost pyHeld (raise : Prog PyModel Unit) ⟨false, 100⟩
      (fun s0 _ => by cases s0 with | mk g t => cases g <;> rfl)).2.2.2.2⟩

/-- C5. Every scope guarded by `AcquireGIL` or `ReleaseGIL`, whatever its body
and whether the body completes (`value = some _`) or exits by exception
(`value = none`), runs exactly the constructor-side call, then the body, then
the destructor-side call with the value the constructor-side call returned; the
guard adds exactly these two host calls to those of the body, and the scope
exits the way the body did. -/
theorem guard_scope_one_acquire_one_release {σ α : Type} (h : Host σ) (body : Prog σ α) (s : σ) :
    ((block (AcquireGIL.ctor h) (AcquireGIL.dtor h) body s).trace =
        Event.PyGILState_Ensure (h.PyGILState_Ensure s).1 ::
          ((body (h.PyGILState_Ensure s).2).trace ++
            [Event.PyGILState_Release (h.PyGILState_Ensure s).1]) ∧
      hostCalls (block (AcquireGIL.ctor h) (AcquireGIL.dtor h) body s).trace =
        Event.PyGILState_Ensure (h.PyGILState_Ensure s).1 ::
          (hostCalls (body (h.PyGILState_Ensure s).2).trace ++
            [Event.PyGILState_Release (h.PyGILState_Ensure s).1]) ∧
      (block (AcquireGIL.ctor h) (AcquireGIL.dtor h) body s).value =
        (body (h.PyGILState_Ensure s).2).value) ∧
    ((block (ReleaseGIL.ctor h) (ReleaseGIL.dtor h) body s).trace =
        Event.PyEval_SaveThread (h.PyEval_SaveThread s).1 ::
          ((body (h.PyEval_SaveThread s).2).trace ++
            [Event.PyEval_RestoreThread (h.PyEval_SaveThread s).1]) ∧
      hostCalls (block (ReleaseGIL.ctor h) (ReleaseGIL.dtor h) body s).trace =
        Event.PyEval_SaveThread (h.PyEval_SaveThread s).1 ::
          (hostCalls (body (h.PyEval_SaveThread s).2).trace ++
            [Event.PyEval_RestoreThread (h.PyEval_SaveThread s).1]) ∧
      (block (ReleaseGIL.ctor h) (ReleaseGIL.dtor h) body s).value =
        (body (h.PyEval_SaveThread s).2).value) := by
  refine ⟨⟨?_, ?_, rfl⟩, ⟨?_, ?_, rfl⟩⟩
  · simp [block, AcquireGIL.ctor, AcquireGIL.dtor]
  · simp [block, AcquireGIL.ctor, AcquireGIL.dtor, hostCalls_append, hostCalls]
  · simp [block, ReleaseGIL.ctor, ReleaseGIL.dtor]
  · simp [block, ReleaseGIL.ctor, ReleaseGIL.dtor, hostCalls_append, hostCalls]

/-! ## The lock check -/

/-- C6. Built without Python support, `ThisThreadHasTheGIL` returns false in
every host state (and calls nothing); built with Python 3 support it calls
`PyGILState_Check` once and returns true exactly when that call reports that the
calling thread holds the GIL (a non-zero result). -/
theorem ThisThreadHasTheGIL_spec {σ : Type} (cfg : Build) (h : Host σ) (s : σ) :
    (cfg.LIBCARLA_WITH_PYTHON_SUPPORT = false →
      ThisThreadHasTheGIL cfg h s = ⟨[], s, some false⟩) ∧
    (cfg.LIBCARLA_WITH_PYTHON_SUPPORT = true → cfg.PY_MAJOR_VERSION ≥ 3 →
      (ThisThreadHasTheGIL cfg h s).trace = [Event.PyGILState_Check] ∧
      (ThisThreadHasTheGIL cfg h s).host = s ∧
      ((ThisThreadHasTheGIL cfg h s).value = some true ↔ h.PyGILState_Check s ≠ 0) ∧
      ((ThisThreadHasTheGIL cfg h s).value = some false ↔ h.PyGILState_Check s = 0)) := by
  constructor
  · intro hpy
    simp [ThisThreadHasTheGIL, hpy]
  · intro hpy hv
    simp [ThisThreadHasTheGIL, hpy, hv]

/-- Witness for C6 on the reference host: no Python support, and Python 3 with
the GIL held. -/
theorem ThisThreadHasTheGIL_spec_witness :
    ThisThreadHasTheGIL noPy pyHost ⟨true, 100⟩ = ⟨[], ⟨true, 100⟩, some false⟩ ∧
    (ThisThreadHasTheGIL py3 pyHost ⟨true, 100⟩).trace = [Event.PyGILState_Check] ∧
    ((ThisThreadHasTheGIL py3 pyHost ⟨true, 100⟩).value = some true ↔
      pyHost.PyGILState_Check ⟨true, 100⟩ ≠ 0) :=
  ⟨(ThisThreadHasTheGIL_spec noPy pyHost ⟨true, 100⟩).1 rfl,
    ((ThisThreadHasTheGIL_spec py3 pyHost ⟨true, 100⟩).2 rfl (by decide)).1,
    ((ThisThreadHasTheGIL_spec py3 pyHost ⟨true, 100⟩).2 rfl (by decide)).2.2.1⟩

/-! ## The deleters without Python support -/

/-- C7 as stated fails for the null pointer: built without Python support, both
deleters applied to `nullptr` destroy no object at all (not exactly one). -/
theorem deleters_noPython_null_counterexample :
    noPy.LIBCARLA_WITH_PYTHON_SUPPORT = false ∧
    (destructions (AcquireGILDeleter noPy pyHost quietDtor nullptr ⟨false, 100⟩).trace).length
        = 0 ∧
    (destructions (ReleaseGILDeleter noPy pyHost quietDtor nullptr ⟨false, 100⟩).trace).length
        = 0 :=
  ⟨rfl, by decide, by decide⟩

/-- C7, amended. Built without Python support, each deleter is the plain
`delete ptr` for every pointer: it makes no host interpreter call, destroys the
object exactly once (in the host state of entry) when the pointer is non-null,
and destroys nothing when the pointer is null. -/
theorem deleters_noPython_plain_delete {σ : Type} (cfg : Build) (h : Host σ) (dtorT : ObjDtor σ)
    (ptr : Nat) (s : σ) (hpy : cfg.LIBCARLA_WITH_PYTHON_SUPPORT = false) :
    AcquireGILDeleter cfg h dtorT ptr s = delete dtorT ptr s ∧
    ReleaseGILDeleter cfg h dtorT ptr s = delete dtorT ptr s ∧
    hostCalls (AcquireGILDeleter cfg h dtorT ptr s).trace = [] ∧
    hostCalls (ReleaseGILDeleter cfg h dtorT ptr s).trace = [] ∧
    (ptr ≠ nullptr →
      destructions (AcquireGILDeleter cfg h dtorT ptr s).trace = [(ptr, s)] ∧
      destructions (ReleaseGILDeleter cfg h dtorT ptr s).trace = [(ptr, s)]) ∧
    (ptr = nullptr →
      destructions (AcquireGILDeleter cfg h dtorT ptr s).trace = [] ∧
      destructions (ReleaseGILDeleter cfg h dtorT ptr s).trace = []) := by
  rw [AcquireGILDeleter_noPython cfg h dtorT ptr hpy,
    ReleaseGILDeleter_noPython cfg h dtorT ptr hpy]
  refine ⟨rfl, rfl, ?_, ?_, ?_, ?_⟩
  · by_cases hp : ptr = nullptr <;> simp [delete, hp, hostCalls]
  · by_cases hp : ptr = nullptr <;> simp [delete, hp, hostCalls]
  · intro hp
    simp [delete, hp, destructions]
  · intro hp
    simp [delete, hp, destructions]

/-- Witness for the amended C7 on the reference host. -/
theorem deleters_noPython_plain_delete_witness :
    noPy.LIBCARLA_WITH_PYTHON_SUPPORT = false ∧
    AcquireGILDeleter noPy pyHost quietDtor 7 ⟨true, 100⟩ = delete quietDtor 7 ⟨true, 100⟩ ∧
    ReleaseGILDeleter noPy pyHost quietDtor 7 ⟨true, 100⟩ = delete quietDtor 7 ⟨true, 100⟩ ∧
    destructions (AcquireGILDeleter noPy pyHost quietDtor 7 ⟨true, 100⟩).trace
        = [(7, ⟨true, 100⟩)] :=
  ⟨rfl,
    (deleters_noPython_plain_delete noPy pyHost quietDtor 7 ⟨true, 100⟩ rfl).1,
    (deleters_noPython_plain_delete noPy pyHost quietDtor 7 ⟨true, 100⟩ rfl).2.1,
    ((deleters_noPython_plain_delete noPy pyHost quietDtor 7 ⟨true, 100⟩ rfl).2.2.2.2.1
      (by decide)).1⟩

/-! ## The deleters branch on the lock check -/

/-- C8 as stated fails in a build without Python support: there
`ThisThreadHasTheGIL` is false on entry, yet `AcquireGILDeleter` applied to a
non-null pointer only destroys the object and never calls `PyGILState_Ensure`. -/
theorem AcquireGILDeleter_noPython_branch_counterexample :
    (7 : Nat) ≠ nullptr ∧
    (ThisThreadHasTheGIL noPy pyHost ⟨false, 100⟩).value = some false ∧
    (AcquireGILDeleter noPy pyHost quietDtor 7 ⟨false, 100⟩).trace
        = [Event.destroy 7 ⟨false, 100⟩] ∧
    ¬ ∃ tok, Event.PyGILState_Ensure tok ∈
        (AcquireGILDeleter noPy pyHost quietDtor 7 ⟨false, 100⟩).trace :=
  ⟨by decide, by decide, by decide, by
    rintro ⟨tok, htok⟩
    have ht : (AcquireGILDeleter noPy pyHost quietDtor 7 ⟨false, 100⟩).trace
        = [Event.destroy 7 ⟨false, 100⟩] := by decide
    rw [ht] at htok
    simp at htok⟩

/-- C8, amended. With Python support compiled in, for every non-null pointer:
`AcquireGILDeleter` calls `PyGILState_Ensure` if and only if `ThisThreadHasTheGIL`
is false on entry, and then runs the check, the Ensure, the destruction and the
Release of the Ensure token, in this order; `ReleaseGILDeleter` calls
`PyEval_SaveThread` if and only if `ThisThreadHasTheGIL` is true on entry, and
then runs the check, the SaveThread, the destruction and the RestoreThread of the
saved pointer, in this order; otherwise each deleter runs the check and the
destruction only, with no acquire or release call. -/
theorem deleters_branch_on_ThisThreadHasTheGIL {σ : Type} (cfg : Build) (h : Host σ)
    (dtorT : ObjDtor σ) (ptr : Nat) (s : σ)
    (hpy : cfg.LIBCARLA_WITH_PYTHON_SUPPORT = true) (hp : ptr ≠ nullptr) :
    (((∃ tok, Event.PyGILState_Ensure tok ∈ (AcquireGILDeleter cfg h dtorT ptr s).trace) ↔
        (ThisThreadHasTheGIL cfg h s).value = some false) ∧
      ((ThisThreadHasTheGIL cfg h s).value = some false →
        (AcquireGILDeleter cfg h dtorT ptr s).trace =
          (ThisThreadHasTheGIL cfg h s).trace ++
            [Event.PyGILState_Ensure (h.PyGILState_Ensure s).1,
             Event.destroy ptr (h.PyGILState_Ensure s).2,
             Event.PyGILState_Release (h.PyGILState_Ensure s).1]) ∧
      ((ThisThreadHasTheGIL cfg h s).value ≠ some false →
        (AcquireGILDeleter cfg h dtorT ptr s).trace =
            (ThisThreadHasTheGIL cfg h s).trace ++ [Event.destroy ptr s] ∧
          ∀ e ∈ (AcquireGILDeleter cfg h dtorT ptr s).trace, e.isToggle = false)) ∧
    (((∃ t, Event.PyEval_SaveThread t ∈ (ReleaseGILDeleter cfg h dtorT ptr s).trace) ↔
        (ThisThreadHasTheGIL cfg h s).value = some true) ∧
      ((ThisThreadHasTheGIL cfg h s).value = some true →
        (ReleaseGILDeleter cfg h dtorT ptr s).trace =
          (ThisThreadHasTheGIL cfg h s).trace ++
            [Event.PyEval_SaveThread (h.PyEval_SaveThread s).1,
             Event.destroy ptr (h.PyEval_SaveThread s).2,
             Event.PyEval_RestoreThread (h.PyEval_SaveThread s).1]) ∧
      ((ThisThreadHasTheGIL cfg h s).value ≠ some true →
        (ReleaseGILDeleter cfg h dtorT ptr s).trace =
            (ThisThreadHasTheGIL cfg h s).trace ++ [Event.destroy ptr s] ∧
          ∀ e ∈ (ReleaseGILDeleter cfg h dtorT ptr s).trace, e.isToggle = false)) := by
  obtain ⟨b, hb⟩ := ThisThreadHasTheGIL_returns cfg h s
  have hq := (ThisThreadHasTheGIL_trace_quiet cfg h s).2
  have hnoE : ∀ tok, Event.PyGILState_Ensure tok ∉ (ThisThreadHasTheGIL cfg h s).trace := by
    intro tok hmem
    simpa [Event.isToggle] using hq _ hmem
  have hnoS : ∀ t, Event.PyEval_SaveThread t ∉ (ThisThreadHasTheGIL cfg h s).trace := by
    intro t hmem
    simpa [Event.isToggle] using hq _ hmem
  cases b with
  | false =>
    have hA := AcquireGILDeleter_locked cfg h dtorT ptr s hpy hp hb
    have hR := ReleaseGILDeleter_plain cfg h dtorT ptr s hpy hp hb
    refine ⟨⟨?_, ?_, ?_⟩, ⟨?_, ?_, ?_⟩⟩
    · rw [hA, hb]
      simp
    · intro _
      rw [hA]
    · intro hne
      exact absurd hb hne
    · rw [hR, hb]
      simp [hnoS]
    · intro hyes
      rw [hb] at hyes
      cases hyes
    · intro _
      rw [hR]
      refine ⟨rfl, ?_⟩
      intro e he
      rcases List.mem_append.1 he with he | he
      · exact hq e he
      · simp at he
        subst he
        rfl
  | true =>
    have hA := AcquireGILDeleter_plain cfg h dtorT ptr s hpy hp hb
    have hR := ReleaseGILDeleter_unlocked cfg h dtorT ptr s hpy hp hb
    refine ⟨⟨?_, ?_, ?_⟩, ⟨?_, ?_, ?_⟩⟩
    · rw [hA, hb]
      simp [hnoE]
    · intro hno
      rw [hb] at hno
      cases hno
    · intro _
      rw [hA]
      refine ⟨rfl, ?_⟩
      intro e he
      rcases List.mem_append.1 he with he | he
      · exact hq e he
      · simp at he
        subst he
        rfl
    · rw [hR, hb]
      simp
    · intro _
      rw [hR]
    · intro hne
      exact absurd hb hne

/-- Witness for the amended C8 on the reference host with Python 3, entered
without the GIL. -/
theorem deleters_branch_on_ThisThreadHasTheGIL_witness :
    py3.LIBCARLA_WITH_PYTHON_SUPPORT = true ∧ (7 : Nat) ≠ nullptr ∧
    ((∃ tok, Event.PyGILState_Ensure tok ∈
        (AcquireGILDeleter py3 pyHost quietDtor 7 ⟨false, 100⟩).trace) ↔
      (ThisThreadHasTheGIL py3 pyHost ⟨false, 100⟩).value = some false) ∧
    ((∃ t, Event.PyEval_SaveThread t ∈
        (ReleaseGILDeleter py3 pyHost quietDtor 7 ⟨false, 100⟩).trace) ↔
      (ThisThreadHasTheGIL py3 pyHost ⟨false, 100⟩).value = some true) :=
  ⟨rfl, by decide,
    (deleters_branch_on_ThisThreadHasTheGIL py3 pyHost quietDtor 7 ⟨false, 100⟩ rfl
      (by decide)).1.1,
    (deleters_branch_on_ThisThreadHasTheGIL py3 pyHost quietDtor 7 ⟨false, 100⟩ rfl
      (by decide)).2.1⟩

/-! ## Frame and null-pointer behaviour of the deleters -/

/-- C9. In every build, for every pointer (null or not) and every host state on
entry, the GIL status of the calling thread after `AcquireGILDeleter::operator()`
and after `ReleaseGILDeleter::operator()` equals the status on entry, provided
the destructor of the deleted object leaves the status unchanged.  Host
assumptions: releasing an Ensure token restores the status before the Ensure,
`PyEval_RestoreThread` re-acquires the GIL, and a `true` answer of
`ThisThreadHasTheGIL` on entry is truthful. -/
theorem deleters_preserve_GIL_status {σ : Type} (cfg : Build) (h : Host σ) (held : σ → Bool)
    (dtorT : ObjDtor σ) (ptr : Nat) (s : σ)
    (hdtor : ∀ p s0, held (dtorT p s0).2 = held s0)
    (hrel : ∀ s0 s1, held (h.PyGILState_Release (h.PyGILState_Ensure s0).1 s1) = held s0)
    (hres : ∀ t s1, held (h.PyEval_RestoreThread t s1) = true)
    (hcheck : (ThisThreadHasTheGIL cfg h s).value = some true → held s = true) :
    held (AcquireGILDeleter cfg h dtorT ptr s).host = held s ∧
    held (ReleaseGILDeleter cfg h dtorT ptr s).host = held s := by
  have hdel : held (delete dtorT ptr s).host = held s := by
    by_cases hp : ptr = nullptr <;> simp [delete, hp, hdtor]
  cases hpy : cfg.LIBCARLA_WITH_PYTHON_SUPPORT with
  | false =>
    rw [AcquireGILDeleter_noPython cfg h dtorT ptr hpy,
      ReleaseGILDeleter_noPython cfg h dtorT ptr hpy]
    exact ⟨hdel, hdel⟩
  | true =>
    by_cases hp : ptr = nullptr
    · subst hp
      rw [AcquireGILDeleter_null, ReleaseGILDeleter_null]
      exact ⟨rfl, rfl⟩
    · obtain ⟨b, hb⟩ := ThisThreadHasTheGIL_returns cfg h s
      cases b with
      | false =>
        rw [AcquireGILDeleter_locked cfg h dtorT ptr s hpy hp hb,
          ReleaseGILDeleter_plain cfg h dtorT ptr s hpy hp hb]
        exact ⟨hrel _ _, hdtor _ _⟩
      | true =>
        rw [AcquireGILDeleter_plain cfg h dtorT ptr s hpy hp hb,
          ReleaseGILDeleter_unlocked cfg h dtorT ptr s hpy hp hb]
        exact ⟨hdtor _ _, (hres _ _).trans (hcheck hb).symm⟩

/-- Witness for C9 on the reference host with Python 3, entered with the GIL
held. -/
theorem deleters_preserve_GIL_status_witness :
    (∀ p s0, pyHeld (quietDtor p s0).2 = pyHeld s0) ∧
    (∀ s0 s1, pyHeld (pyHost.PyGILState_Release (pyHost.PyGILState_Ensure s0).1 s1)
        = pyHeld s0) ∧
    (∀ t s1, pyHeld (pyHost.PyEval_RestoreThread t s1) = true) ∧
    pyHeld (AcquireGILDeleter py3 pyHost quietDtor 7 ⟨true, 100⟩).host = pyHeld ⟨true, 100⟩ ∧
    pyHeld (ReleaseGILDeleter py3 pyHost quietDtor 7 ⟨true, 100⟩).host = pyHeld ⟨true, 100⟩ :=
  ⟨fun _ _ => rfl, fun s0 _ => by cases s0 with | mk g t => cases g <;> rfl, fun _ _ => rfl,
    deleters_preserve_GIL_status py3 pyHost pyHeld quietDtor 7 ⟨true, 100⟩
      (fun _ _ => rfl) (fun s0 _ => by cases s0 with | mk g t => cases g <;> rfl)
      (fun _ _ => rfl) (fun _ => rfl)⟩

/-- C10. With Python support compiled in, both deleters applied to the null
pointer execute nothing: the trace is empty (no lock check, no acquire, release,
save or restore call, and no destruction), the host state is untouched, and the
call returns normally. -/
theorem deleters_null_pointer_no_host_call {σ : Type} (cfg : Build) (h : Host σ)
    (dtorT : ObjDtor σ) (s : σ) (hpy : cfg.LIBCARLA_WITH_PYTHON_SUPPORT = true) :
    AcquireGILDeleter cfg h dtorT nullptr s = ⟨[], s, some ()⟩ ∧
    ReleaseGILDeleter cfg h dtorT nullptr s = ⟨[], s, some ()⟩ := by
  constructor
  · simp [AcquireGILDeleter, hpy, delete]
  · simp [ReleaseGILDeleter, hpy, delete]

/-- Witness for C10 on the reference host with Python 3. -/
theorem deleters_null_pointer_no_host_call_witness :
    py3.LIBCARLA_WITH_PYTHON_SUPPORT = true ∧
    AcquireGILDeleter py3 pyHost quietDtor nullptr ⟨false, 100⟩
        = ⟨[], ⟨false, 100⟩, some ()⟩ ∧
    ReleaseGILDeleter py3 pyHost quietDtor nullptr ⟨true, 100⟩
        = ⟨[], ⟨true, 100⟩, some ()⟩ :=
  ⟨rfl, (deleters_null_pointer_no_host_call py3 pyHost quietDtor ⟨false, 100⟩ rfl).1,
    (deleters_null_pointer_no_host_call py3 pyHost quietDtor ⟨true, 100⟩ rfl).2⟩

end carla
